import Mathlib

/-!
Verification development for the `ptn2midi` repository (two Python source
files: `src/ptn2midi.py`, targeting the Roland SP-404SX, and
`src/sp404mkii_sample_extract.py`, targeting the SP-404mkII).

The two files implement the same pipeline with different constants
(`PADS_PER_BANK`, ticks per quarter note, sample-filename scheme, accepted
extensions) and two behavioural differences around unresolvable samples.
The shared pipeline is embedded once (`Device.*`), parameterized by a
`DeviceProfile`; each file's functions are the instantiation at that file's
profile and constants, declared in the namespaces `Ptn2midi` and
`Sp404mkii`.

Modelling conventions:
* Python byte/int fields become `Nat`/`Int`; Python `//` and `%` on ints
  become `Int.fdiv`/`Int.emod` (floor division / sign-of-divisor modulus,
  matching Python on the positive divisors used here).
* Musical time (beats) is `ℚ`.
* The sample directory is a list of its entries' file names, in the order
  `pathlib.Path(...).glob('*')` yields them; every entry is a regular file,
  so the `os.path.isfile` test on a path obtained from the listing is true.
* `pads` (the decoded pad table, a Python dict) is a partial map
  `Int → Option Pad`; a missing key is a `KeyError` that aborts the run.
* Fallible code returns `Except`/`Option`: `sys.exit(1)` inside
  `notetuple_to_sample_number` is `Option.none` at the function level and
  `RunError.bank_switch_exit` at the run level; an uncaught `StopIteration`
  from `next(filter(...))` is `RunError.stop_iteration`.
* Audio trimming writes files on disk and does not affect the produced MIDI
  events; `create_midi_file` is therefore modelled as producing the list of
  `addNote` calls, and the pure frame-window computation of
  `trim_wav_by_frame_numbers` is modelled separately for each file.
-/

/-- Python `str.endswith`, at the character level. -/
def pyEndsWith (s suffix : String) : Bool :=
  suffix.toList.isSuffixOf s.toList

/-- Python `str.lower`, at the character level (the file names involved
are ASCII, where `Char.toLower` agrees with Python). -/
def pyLower (s : String) : String :=
  String.mk (s.toList.map Char.toLower)

/-- Python `'%0{width}d' % n` / `str(n).zfill(width)` / `f'{n:0{width}d}'`:
decimal rendering of `n` left-padded with zeros to `width` characters, the
sign counted in the width and placed before the zeros. -/
def pyZfill (width : Nat) (n : Int) : String :=
  let sign := if n < 0 then "-" else ""
  let digits := toString n.natAbs
  sign ++ String.mk (List.replicate (width - sign.length - digits.length) '0') ++ digits

/-- Python `int(s)` restricted to non-empty strings of decimal digits (the
only shapes the pattern-name claims exercise); anything else raises
`ValueError`, modelled as `none`. -/
def pyInt (s : List Char) : Option Int :=
  if s ≠ [] ∧ s.all Char.isDigit then
    some (s.foldl (fun a c => a * 10 + ((c.toNat : Int) - 48)) 0)
  else none

/-- One 8-byte note record of a pattern file, fields in the order of the
`Note` namedtuple (`'delay pad bank_switch unknown2 velocity unknown3
length'`, struct format `>BBBBBBH`). -/
structure Note where
  delay : Nat
  pad : Nat
  bank_switch : Nat
  unknown2 : Nat
  velocity : Nat
  unknown3 : Nat
  length : Nat
deriving DecidableEq, Repr

/-- One 32-byte pad record of the pad-configuration file, fields in the
order of the `Pad` namedtuple (struct format `>IIIIB????BBBII`). -/
structure Pad where
  start : Nat
  «end» : Nat
  user_start : Nat
  user_end : Nat
  volume : Nat
  lofi : Bool
  loop : Bool
  gate : Bool
  reverse : Bool
  unknown1 : Nat
  channels : Nat
  tempo_mode : Nat
  tempo : Nat
  user_tempo : Nat
deriving DecidableEq, Repr

/-- One `midi_file.addNote(track=0, channel=0, pitch, time, duration,
volume)` call. `note_path` additionally records, for specification
purposes, the resolved sample path whose entry of `note_path_to_pitch`
supplied `pitch` (the `addNote` call itself receives only the other four
fields). -/
structure MidiNote where
  pitch : Nat
  time : ℚ
  duration : ℚ
  volume : Nat
  note_path : String
deriving DecidableEq, Repr

/-- The loop state of `create_midi_file`: the pitch dictionary
(`note_path_to_pitch`, as an insertion-ordered association list),
`next_available_pitch`, `time_in_beats_for_next_note`, and the `addNote`
calls issued so far. -/
structure MidiState where
  note_path_to_pitch : List (String × Nat)
  next_available_pitch : Nat
  time_in_beats_for_next_note : ℚ
  events : List MidiNote
deriving DecidableEq, Repr

/-- The ways a conversion run aborts with an unhandled error /
interpreter exit. -/
inductive RunError where
  /-- Exit via `sys.exit(1)` in `notetuple_to_sample_number` (unexpected
  `bank_switch`). -/
  | bank_switch_exit
  /-- uncaught `StopIteration` from `next(filter(...))` when no directory
  entry matches (only `ptn2midi.py`; the mkII file catches it). -/
  | stop_iteration
  /-- A `KeyError` from `pads[notetuple_to_sample_number(note)]`. -/
  | key_error
deriving DecidableEq, Repr

/-- The per-device-generation parameters of the shared pipeline, per the
constants and function variants of the two source files. -/
structure DeviceProfile where
  /-- Constant `PADS_PER_BANK` (12 for `ptn2midi.py`, 16 for the mkII file). -/
  PADS_PER_BANK : Nat
  /-- ticks per quarter note (`PPQ = 96` / `TICKS_PER_QUARTER_NOTE = 480`). -/
  ticks : Nat
  /-- Function `pad_number_to_filename` (the sample-filename stem scheme). -/
  stem : Int → String
  /-- whether a directory entry name matches a note's filename stem
  (the predicate of the `filter(...)` over the sample-directory glob). -/
  sampleMatch : String → String → Bool
  /-- Set when a failed resolution is caught
  (`except StopIteration: continue`, mkII file only). -/
  missing_sample_skips_note : Bool

namespace Device

/-- Model of `notetuple_to_sample_number` (identical in both files up to
`PADS_PER_BANK`): bank_switch 64/0 gives `pad - 46`; 65/1 gives
`pad - 46 + PADS_PER_BANK * 5`; anything else prints and `sys.exit(1)`
(modelled as `none`). -/
def notetuple_to_sample_number (ppb : Nat) (note : Note) : Option Int :=
  if note.bank_switch = 64 ∨ note.bank_switch = 0 then
    some ((note.pad : Int) - 46)
  else if note.bank_switch = 65 ∨ note.bank_switch = 1 then
    some ((note.pad : Int) - 46 + (ppb : Int) * 5)
  else
    none

/-- Model of `next(filter(lambda s: <match>, Path(sample_dir).glob('*')))`:
the first directory entry matching the note's filename stem, `none` when
the filter is empty (`StopIteration`). -/
def findSample (P : DeviceProfile) (files : List String) (note_filename : String) :
    Option String :=
  files.find? (fun s => P.sampleMatch s note_filename)

/-- The state at the top of `create_midi_file`'s loop: empty pitch
dictionary, `next_available_pitch = 36`, time 0, no `addNote` calls yet. -/
def initialState : MidiState :=
  { note_path_to_pitch := [], next_available_pitch := 36,
    time_in_beats_for_next_note := 0, events := [] }

/-- One iteration of the `for note in notes` loop of `create_midi_file`.
Mirrors the source control flow: the `note.pad != 128` test; sample-number
resolution (possible `sys.exit`); the directory search (uncaught
`StopIteration` aborts in `ptn2midi.py`, `continue` in the mkII file —
note the `continue` also bypasses the delay accumulation at the bottom of
the loop); first-occurrence pitch assignment; the pad-table lookup
(possible `KeyError`); the `addNote` call; and the unconditional (apart
from the `continue`) `time_in_beats_for_next_note += note.delay / ticks`. -/
def step (P : DeviceProfile) (files : List String) (pads : Int → Option Pad)
    (st : MidiState) (note : Note) : Except RunError MidiState :=
  if note.pad ≠ 128 then
    match notetuple_to_sample_number P.PADS_PER_BANK note with
    | none => .error .bank_switch_exit
    | some sample_number =>
      match findSample P files (P.stem sample_number) with
      | none =>
        if P.missing_sample_skips_note then .ok st else .error .stop_iteration
      | some note_path =>
        let note_path_to_pitch :=
          if (st.note_path_to_pitch.lookup note_path).isSome then
            st.note_path_to_pitch
          else
            st.note_path_to_pitch ++ [(note_path, st.next_available_pitch)]
        let next_available_pitch :=
          if (st.note_path_to_pitch.lookup note_path).isSome then
            st.next_available_pitch
          else
            st.next_available_pitch + 1
        let pitch := (note_path_to_pitch.lookup note_path).getD 0
        match pads sample_number with
        | none => .error .key_error
        | some _pad =>
          .ok { note_path_to_pitch := note_path_to_pitch,
                next_available_pitch := next_available_pitch,
                time_in_beats_for_next_note :=
                  st.time_in_beats_for_next_note + (note.delay : ℚ) / (P.ticks : ℚ),
                events :=
                  st.events ++
                    [{ pitch := pitch,
                       time := st.time_in_beats_for_next_note,
                       duration := (note.length : ℚ) / (P.ticks : ℚ),
                       volume := 100,
                       note_path := note_path }] }
  else
    .ok { st with
          time_in_beats_for_next_note :=
            st.time_in_beats_for_next_note + (note.delay : ℚ) / (P.ticks : ℚ) }

/-- The `for note in notes` loop of `create_midi_file`, threading the loop
state; an unhandled error anywhere aborts the run. -/
def processNotes (P : DeviceProfile) (files : List String) (pads : Int → Option Pad) :
    MidiState → List Note → Except RunError MidiState
  | st, [] => .ok st
  | st, note :: notes =>
    match step P files pads st note with
    | .error e => .error e
    | .ok st' => processNotes P files pads st' notes

/-- Model of `create_midi_file`, reduced to the data it contributes to the output
MIDI track: the final loop state (the track-name/tempo events and the
file-copy loop after the note loop do not touch the note events). -/
def create_midi_file (P : DeviceProfile) (files : List String)
    (pads : Int → Option Pad) (notes : List Note) : Except RunError MidiState :=
  processNotes P files pads initialState notes

/-- The sample path a note resolves to, when it does: the note is not a
rest (`pad != 128`), its `bank_switch` is one of the four accepted values,
and a directory entry matches its stem. -/
def resolvedPath (P : DeviceProfile) (files : List String) (note : Note) :
    Option String :=
  if note.pad ≠ 128 then
    (notetuple_to_sample_number P.PADS_PER_BANK note).bind
      (fun sample_number => findSample P files (P.stem sample_number))
  else none

/-- The resolved sample paths of a note list, in note order. -/
def resolvedPaths (P : DeviceProfile) (files : List String) (notes : List Note) :
    List String :=
  notes.filterMap (resolvedPath P files)

/-- Whether a note produces an `addNote` call in a run that completes:
exactly the notes with a resolved sample path. -/
def emits (P : DeviceProfile) (files : List String) (note : Note) : Bool :=
  (resolvedPath P files note).isSome

end Device

/-- Model of `padtuple_to_trim_samplenums` (identical in both files):
`((user_start - 512) // 2, (user_end - 512) // 2)`. -/
def padtuple_to_trim_samplenums (pad : Pad) : Int × Int :=
  (((pad.user_start : Int) - 512).fdiv 2, ((pad.user_end : Int) - 512).fdiv 2)

/-- Big-endian `H` (unsigned 16-bit) from two bytes. -/
def u16be (hi lo : Nat) : Nat := hi * 256 + lo

/-- Model of `struct.unpack('b', ...)`: a byte as a signed 8-bit integer. -/
def i8 (b : Nat) : Int := if b < 128 then (b : Int) else (b : Int) - 256

/-- The `i`-th 8-byte record of a pattern file, unpacked with `>BBBBBBH`
into the `Note` namedtuple. (Within `get_pattern` every access is in
bounds, so the out-of-range default 0 is never consulted.) -/
def readNote (data : List Nat) (i : Nat) : Note :=
  { delay := data.getD (8 * i) 0,
    pad := data.getD (8 * i + 1) 0,
    bank_switch := data.getD (8 * i + 2) 0,
    unknown2 := data.getD (8 * i + 3) 0,
    velocity := data.getD (8 * i + 4) 0,
    unknown3 := data.getD (8 * i + 5) 0,
    length := u16be (data.getD (8 * i + 6) 0) (data.getD (8 * i + 7) 0) }

/-- Model of `get_pattern` (identical in both files), over the pattern file's bytes:
reads `ptn_filesize // BYTES_PER_NOTE - 2` 8-byte notes (the loop body runs
zero times when that quantity is negative), then 16 trailer bytes, and
unpacks `ptn_trailer[9:10]` as the signed bar count — a slice of fewer than
one byte makes that `struct.unpack` raise `struct.error`. No size
validation is performed (the source carries only a TODO comment for it). -/
def get_pattern (data : List Nat) : Except String (List Note × Int) :=
  let note_count : Int := ((data.length / 8 : Nat) : Int) - 2
  let nc := note_count.toNat
  let notes := (List.range nc).map (readNote data)
  let ptn_trailer := (data.drop (8 * nc)).take 16
  match ptn_trailer.drop 9 with
  | [] => .error "struct.error"
  | b :: _ => .ok (notes, i8 b)

namespace Ptn2midi

/-- Constant `TOTAL_BANKS = 10` (src/ptn2midi.py). -/
def TOTAL_BANKS : Nat := 10

/-- Constant `PADS_PER_BANK = 12` (src/ptn2midi.py). -/
def PADS_PER_BANK : Nat := 12

/-- Constant `PPQ = 96` (src/ptn2midi.py). -/
def PPQ : Nat := 96

/-- Model of `pad_number_to_filename` (src/ptn2midi.py): bank letter followed by the
in-bank pad number as `'%07d'`. -/
def pad_number_to_filename (pad_number : Int) : String :=
  let pad_number := pad_number - 1
  let bank_number := pad_number.fdiv (PADS_PER_BANK : Int)
  let bank_name := Char.ofNat ((65 + bank_number).toNat)
  let bank_pad_number := pad_number.emod (PADS_PER_BANK : Int) + 1
  String.singleton bank_name ++ pyZfill 7 bank_pad_number

/-- Model of `pattern_name_to_filename` (src/ptn2midi.py):
`(ord(name[0].upper()) - ord('A')) * 12 + int(name[1:]) % PADS_PER_BANK`,
zero-filled to 5 digits inside `PTN....BIN`; `none` models the exceptions
of indexing an empty name or `int()` on a non-numeric tail. -/
def pattern_name_to_filename (pattern_name : String) : Option String :=
  match pattern_name.toList with
  | [] => none
  | c :: rest =>
    (pyInt rest).map (fun n =>
      let x : Int := ((c.toUpper.toNat : Int) - 65) * 12
      let y : Int := n.emod (PADS_PER_BANK : Int)
      "PTN" ++ pyZfill 5 (x + y) ++ ".BIN")

/-- The SP-404SX device profile of src/ptn2midi.py: 12 pads per bank, 96
ticks per quarter note, `{letter}{pad:07d}` stems matched case-sensitively
against `.WAV`/`.AIF`, and no handler around the directory search. -/
def profile : DeviceProfile :=
  { PADS_PER_BANK := PADS_PER_BANK,
    ticks := PPQ,
    stem := pad_number_to_filename,
    sampleMatch := fun s note_filename =>
      pyEndsWith s (note_filename ++ ".WAV") || pyEndsWith s (note_filename ++ ".AIF"),
    missing_sample_skips_note := false }

/-- Model of `notetuple_to_sample_number` (src/ptn2midi.py). -/
def notetuple_to_sample_number (note : Note) : Option Int :=
  Device.notetuple_to_sample_number PADS_PER_BANK note

/-- Model of `create_midi_file` (src/ptn2midi.py), as the final loop state over the
sample-directory listing, pad table and note list. -/
def create_midi_file (files : List String) (pads : Int → Option Pad)
    (notes : List Note) : Except RunError MidiState :=
  Device.create_midi_file profile files pads notes

/-- Model of `trim_wav_by_frame_numbers` (src/ptn2midi.py), reduced to the frame
window it writes: no window validation exists in this file, so the output
holds `end_frame - start_frame` frames starting at `start_frame`; but
`in_file.setpos(start_frame)` raises an uncaught `wave.Error` when
`start_frame` is outside `[0, nframes]`. -/
def trim_wav_by_frame_numbers (nframes start_frame end_frame : Int) :
    Except String (Int × Int) :=
  if start_frame < 0 ∨ nframes < start_frame then
    .error "wave.Error: position not in range"
  else
    .ok (start_frame, end_frame - start_frame)

end Ptn2midi

namespace Sp404mkii

/-- Constant `TOTAL_BANKS = 10` (src/sp404mkii_sample_extract.py). -/
def TOTAL_BANKS : Nat := 10

/-- Constant `PADS_PER_BANK = 16` (src/sp404mkii_sample_extract.py). -/
def PADS_PER_BANK : Nat := 16

/-- Constant `TICKS_PER_QUARTER_NOTE = 480` (src/sp404mkii_sample_extract.py). -/
def TICKS_PER_QUARTER_NOTE : Nat := 480

/-- Model of `pad_number_to_filename` (src/sp404mkii_sample_extract.py):
`f'BANK{bank_number}-{bank_pad_number:02d}'`. -/
def pad_number_to_filename (pad_number : Int) : String :=
  let pad_number := pad_number - 1
  let bank_number := pad_number.fdiv (PADS_PER_BANK : Int)
  let bank_pad_number := pad_number.emod (PADS_PER_BANK : Int) + 1
  "BANK" ++ toString bank_number ++ "-" ++ pyZfill 2 bank_pad_number

/-- Model of `pattern_name_to_filename` (src/sp404mkii_sample_extract.py): as the
SX version but with `PADS_PER_BANK = 16` as the bank-letter multiplier. -/
def pattern_name_to_filename (pattern_name : String) : Option String :=
  match pattern_name.toList with
  | [] => none
  | c :: rest =>
    (pyInt rest).map (fun n =>
      let x : Int := ((c.toUpper.toNat : Int) - 65) * (PADS_PER_BANK : Int)
      let y : Int := n.emod (PADS_PER_BANK : Int)
      "PTN" ++ pyZfill 5 (x + y) ++ ".BIN")

/-- The SP-404mkII device profile of src/sp404mkii_sample_extract.py: 16
pads per bank, 480 ticks per quarter note, `BANK{n}-{nn}` stems matched
case-insensitively against `.wav`/`.aif`/`.smp`, and
`except StopIteration: continue` around the directory search. -/
def profile : DeviceProfile :=
  { PADS_PER_BANK := PADS_PER_BANK,
    ticks := TICKS_PER_QUARTER_NOTE,
    stem := pad_number_to_filename,
    sampleMatch := fun s note_filename =>
      pyEndsWith (pyLower s) (pyLower note_filename ++ ".wav") ||
      pyEndsWith (pyLower s) (pyLower note_filename ++ ".aif") ||
      pyEndsWith (pyLower s) (pyLower note_filename ++ ".smp"),
    missing_sample_skips_note := true }

/-- Model of `notetuple_to_sample_number` (src/sp404mkii_sample_extract.py). -/
def notetuple_to_sample_number (note : Note) : Option Int :=
  Device.notetuple_to_sample_number PADS_PER_BANK note

/-- Model of `create_midi_file` (src/sp404mkii_sample_extract.py), as the final
loop state over the sample-directory listing, pad table and note list. -/
def create_midi_file (files : List String) (pads : Int → Option Pad)
    (notes : List Note) : Except RunError MidiState :=
  Device.create_midi_file profile files pads notes

/-- Model of `trim_wav_by_frame_numbers` (src/sp404mkii_sample_extract.py), reduced
to the frame window it writes: an invalid window (`end_frame ==
start_frame` or a negative frame) is replaced by the full sample `(0,
in_file.getnframes())`, and the output length is clamped to the input's
frame count. Returns (effective start frame, output length in frames). -/
def trim_wav_by_frame_numbers (start_frame end_frame nframes : Int) : Int × Int :=
  let start_frame' :=
    if end_frame = start_frame ∨ start_frame < 0 ∨ end_frame < 0 then 0
    else start_frame
  let end_frame' :=
    if end_frame = start_frame ∨ start_frame < 0 ∨ end_frame < 0 then nframes
    else end_frame
  (start_frame', min (end_frame' - start_frame') nframes)

end Sp404mkii

/-- Appends `p` to `acc` unless already present: one step of collecting
first occurrences. -/
def insertNew (acc : List String) (p : String) : List String :=
  if p ∈ acc then acc else acc ++ [p]

/-- The first occurrences of the elements of a list, in order, appended to
an accumulator of elements treated as already seen. -/
def firstOccsFrom (acc : List String) : List String → List String
  | [] => acc
  | p :: ps => firstOccsFrom (insertNew acc p) ps

/-- The distinct elements of a list, listed in the order of their first
occurrence. -/
def firstOccs (l : List String) : List String := firstOccsFrom [] l

/-- The association list giving the `i`-th listed string the value
`base + i`: the shape `note_path_to_pitch` takes when its keys, in
insertion order, are a given list and pitches were handed out from
`base` on. -/
def pitchMapFrom (base : Nat) : List String → List (String × Nat)
  | [] => []
  | p :: ps => (p, base) :: pitchMapFrom (base + 1) ps

/-- Zeroes a note's `velocity` field, keeping every other field. -/
def scrub_velocity (n : Note) : Note := { n with velocity := 0 }

/-- A key is present in `pitchMapFrom b seen` exactly when it occurs in
`seen` (the `note_path not in note_path_to_pitch` membership test). -/
lemma lookup_pitchMapFrom_isSome (b : Nat) (seen : List String) (p : String) :
    (List.lookup p (pitchMapFrom b seen)).isSome = true ↔ p ∈ seen := by
  induction seen generalizing b with
  | nil => simp [pitchMapFrom, List.lookup]
  | cons a t ih =>
    by_cases h : p = a
    · subst h
      simp [pitchMapFrom, List.lookup]
    · simp only [pitchMapFrom, List.lookup, beq_false_of_ne h, List.mem_cons]
      rw [ih (b + 1)]
      simp [h]

/-- Looking up a member of `seen` in `pitchMapFrom b seen` yields `b`
plus the index of its first occurrence. -/
lemma lookup_pitchMapFrom_of_mem (b : Nat) (seen : List String) (p : String) :
    p ∈ seen → List.lookup p (pitchMapFrom b seen) = some (b + seen.indexOf p) := by
  induction seen generalizing b with
  | nil => intro h; simp at h
  | cons a t ih =>
    intro h
    by_cases hpa : p = a
    · subst hpa
      simp [pitchMapFrom, List.lookup, List.indexOf_cons_self]
    · rw [List.mem_cons] at h
      rcases h with h | h
      · exact absurd h hpa
      · simp only [pitchMapFrom, List.lookup, beq_false_of_ne hpa]
        rw [ih (b + 1) h, List.indexOf_cons_ne _ (Ne.symm hpa)]
        congr 1
        omega

/-- Appending a fresh key to the seen list appends the next pitch value
to the association list. -/
lemma pitchMapFrom_append (b : Nat) (seen : List String) (p : String) :
    pitchMapFrom b (seen ++ [p]) = pitchMapFrom b seen ++ [(p, b + seen.length)] := by
  induction seen generalizing b with
  | nil => simp [pitchMapFrom]
  | cons a t ih =>
    simp only [List.cons_append, pitchMapFrom, List.length_cons]
    rw [show t.append [p] = t ++ [p] from rfl, ih (b + 1)]
    have hb : b + 1 + t.length = b + (t.length + 1) := by omega
    rw [hb]

/-- Case analysis of one successful loop iteration: either the note was
skipped (rest, or unresolvable sample under the mkII `continue`) leaving
the pitch state and events unchanged, or it resolved to a sample path,
updated the pitch dictionary first-occurrence style, appended exactly one
`addNote` call at the current elapsed time with volume 100, and advanced
elapsed time by `delay / ticks`. -/
lemma step_ok_cases {P : DeviceProfile} {files : List String} {pads : Int → Option Pad}
    {st : MidiState} {note : Note} {st' : MidiState}
    (h : Device.step P files pads st note = .ok st') :
    (Device.resolvedPath P files note = none ∧
     st'.note_path_to_pitch = st.note_path_to_pitch ∧
     st'.next_available_pitch = st.next_available_pitch ∧
     st'.events = st.events ∧
     (st'.time_in_beats_for_next_note = st.time_in_beats_for_next_note ∨
      st'.time_in_beats_for_next_note =
        st.time_in_beats_for_next_note + (note.delay : ℚ) / (P.ticks : ℚ)))
    ∨
    (∃ note_path,
     Device.resolvedPath P files note = some note_path ∧
     st'.note_path_to_pitch =
       (if (List.lookup note_path st.note_path_to_pitch).isSome then
          st.note_path_to_pitch
        else st.note_path_to_pitch ++ [(note_path, st.next_available_pitch)]) ∧
     st'.next_available_pitch =
       (if (List.lookup note_path st.note_path_to_pitch).isSome then
          st.next_available_pitch
        else st.next_available_pitch + 1) ∧
     st'.events = st.events ++
       [{ pitch := (List.lookup note_path st'.note_path_to_pitch).getD 0,
          time := st.time_in_beats_for_next_note,
          duration := (note.length : ℚ) / (P.ticks : ℚ),
          volume := 100,
          note_path := note_path }] ∧
     st'.time_in_beats_for_next_note =
       st.time_in_beats_for_next_note + (note.delay : ℚ) / (P.ticks : ℚ)) := by
  unfold Device.step at h
  by_cases hpad : note.pad ≠ 128
  · rw [if_pos hpad] at h
    cases hsn : Device.notetuple_to_sample_number P.PADS_PER_BANK note with
    | none => rw [hsn] at h; exact absurd h (by simp)
    | some sample_number =>
      rw [hsn] at h
      dsimp only [] at h
      cases hfind : Device.findSample P files (P.stem sample_number) with
      | none =>
        rw [hfind] at h
        by_cases hms : P.missing_sample_skips_note
        · rw [if_pos hms] at h
          left
          have hst : st = st' := by
            cases h; rfl
          subst hst
          refine ⟨?_, rfl, rfl, rfl, Or.inl rfl⟩
          simp [Device.resolvedPath, hpad, hsn, hfind]
        · rw [if_neg hms] at h
          exact absurd h (by simp)
      | some note_path =>
        rw [hfind] at h
        dsimp only [] at h
        cases hpads : pads sample_number with
        | none => rw [hpads] at h; exact absurd h (by simp)
        | some pd =>
          rw [hpads] at h
          dsimp only [] at h
          injection h with h2
          subst h2
          right
          exact ⟨note_path, by simp [Device.resolvedPath, hpad, hsn, hfind],
                 rfl, rfl, rfl, rfl⟩
  · rw [if_neg hpad] at h
    left
    have hst : st' = { st with
        time_in_beats_for_next_note :=
          st.time_in_beats_for_next_note + (note.delay : ℚ) / (P.ticks : ℚ) } := by
      cases h; rfl
    subst hst
    refine ⟨?_, rfl, rfl, rfl, Or.inr rfl⟩
    simp only [Device.resolvedPath]
    rw [if_neg hpad]

/-- Invariant of the note loop: if the pitch dictionary holds exactly the
already-seen sample paths with pitches `36, 37, ...` in first-occurrence
order, and every emitted event's pitch is 36 plus the first-occurrence
index of its path, then both facts persist through the rest of the loop,
with the seen list extended by the notes' resolved paths. -/
lemma processNotes_pitch_inv (P : DeviceProfile) (files : List String)
    (pads : Int → Option Pad) (notes : List Note) :
    ∀ (st st' : MidiState) (seen : List String),
      st.note_path_to_pitch = pitchMapFrom 36 seen →
      st.next_available_pitch = 36 + seen.length →
      (∀ e ∈ st.events, e.note_path ∈ seen ∧ e.pitch = 36 + seen.indexOf e.note_path) →
      Device.processNotes P files pads st notes = .ok st' →
      ∀ e ∈ st'.events,
        e.note_path ∈ firstOccsFrom seen (Device.resolvedPaths P files notes) ∧
        e.pitch = 36 +
          (firstOccsFrom seen (Device.resolvedPaths P files notes)).indexOf e.note_path := by
  induction notes with
  | nil =>
    intro st st' seen hmap hnext hev hok
    simp only [Device.processNotes] at hok
    injection hok with h2
    subst h2
    simpa [Device.resolvedPaths, firstOccsFrom] using hev
  | cons note notes ih =>
    intro st st' seen hmap hnext hev hok
    simp only [Device.processNotes] at hok
    cases hstep : Device.step P files pads st note with
    | error e => rw [hstep] at hok; cases hok
    | ok st1 =>
      rw [hstep] at hok
      rcases step_ok_cases hstep with
        ⟨hres, hm, hn, he, _⟩ | ⟨note_path, hres, hm, hn, he, _⟩
      · have hpaths : Device.resolvedPaths P files (note :: notes) =
            Device.resolvedPaths P files notes := by
          simp [Device.resolvedPaths, List.filterMap_cons, hres]
        rw [hpaths]
        exact ih st1 st' seen (hm.trans hmap) (hn.trans hnext)
          (fun e hee => hev e (he ▸ hee)) hok
      · have hpaths : Device.resolvedPaths P files (note :: notes) =
            note_path :: Device.resolvedPaths P files notes := by
          simp [Device.resolvedPaths, List.filterMap_cons, hres]
        rw [hpaths]
        rw [show firstOccsFrom seen (note_path :: Device.resolvedPaths P files notes) =
              firstOccsFrom (insertNew seen note_path) (Device.resolvedPaths P files notes)
            from rfl]
        by_cases hp : note_path ∈ seen
        · have hsome : (List.lookup note_path st.note_path_to_pitch).isSome = true := by
            rw [hmap]; exact (lookup_pitchMapFrom_isSome 36 seen note_path).mpr hp
          have hseen' : insertNew seen note_path = seen := by simp [insertNew, hp]
          rw [hseen']
          have hmap1 : st1.note_path_to_pitch = pitchMapFrom 36 seen := by
            rw [hm, if_pos hsome, hmap]
          have hnext1 : st1.next_available_pitch = 36 + seen.length := by
            rw [hn, if_pos hsome, hnext]
          have hev1 : ∀ e ∈ st1.events,
              e.note_path ∈ seen ∧ e.pitch = 36 + seen.indexOf e.note_path := by
            intro e hee
            rw [he] at hee
            rcases List.mem_append.mp hee with h1 | h1
            · exact hev e h1
            · rw [List.mem_singleton] at h1
              subst h1
              refine ⟨hp, ?_⟩
              dsimp only []
              rw [hmap1, lookup_pitchMapFrom_of_mem 36 seen note_path hp]
              rfl
          exact ih st1 st' seen hmap1 hnext1 hev1 hok
        · have hsome : (List.lookup note_path st.note_path_to_pitch).isSome = false := by
            rw [hmap]
            rw [Bool.eq_false_iff]
            intro hcon
            exact hp ((lookup_pitchMapFrom_isSome 36 seen note_path).mp hcon)
          have hnotsome : ¬ ((List.lookup note_path st.note_path_to_pitch).isSome = true) := by
            rw [hsome]; exact Bool.false_ne_true
          have hseen' : insertNew seen note_path = seen ++ [note_path] := by
            simp [insertNew, hp]
          have hmem' : note_path ∈ insertNew seen note_path := by
            rw [hseen']; exact List.mem_append_right _ (List.mem_singleton_self _)
          have hmap1 : st1.note_path_to_pitch = pitchMapFrom 36 (insertNew seen note_path) := by
            rw [hm, if_neg hnotsome, hmap, hnext, hseen', pitchMapFrom_append]
          have hnext1 : st1.next_available_pitch = 36 + (insertNew seen note_path).length := by
            rw [hn, if_neg hnotsome, hnext, hseen']
            simp only [List.length_append, List.length_singleton]
            omega
          have hev1 : ∀ e ∈ st1.events,
              e.note_path ∈ insertNew seen note_path ∧
              e.pitch = 36 + (insertNew seen note_path).indexOf e.note_path := by
            intro e hee
            rw [he] at hee
            rcases List.mem_append.mp hee with h1 | h1
            · rcases hev e h1 with ⟨hmm, hpp⟩
              refine ⟨by rw [hseen']; exact List.mem_append_left _ hmm, ?_⟩
              rw [hseen', List.indexOf_append_of_mem hmm]
              exact hpp
            · rw [List.mem_singleton] at h1
              subst h1
              refine ⟨hmem', ?_⟩
              dsimp only []
              rw [hmap1, lookup_pitchMapFrom_of_mem 36 _ note_path hmem']
              rfl
          exact ih st1 st' (insertNew seen note_path) hmap1 hnext1 hev1 hok

/-- Invariant of the note loop for ordering and counting: event start
times stay bounded by the elapsed time, remain pairwise non-decreasing
(elapsed time only grows, each event is stamped with the current elapsed
time and appended), and each note that resolves to a sample contributes
exactly one event — none are merged or deduplicated. -/
lemma processNotes_events_inv (P : DeviceProfile) (files : List String)
    (pads : Int → Option Pad) (notes : List Note) :
    ∀ (st st' : MidiState),
      Device.processNotes P files pads st notes = .ok st' →
      (∀ e ∈ st.events, e.time ≤ st.time_in_beats_for_next_note) →
      List.Pairwise (fun a b : MidiNote => a.time ≤ b.time) st.events →
      ((∀ e ∈ st'.events, e.time ≤ st'.time_in_beats_for_next_note) ∧
       List.Pairwise (fun a b : MidiNote => a.time ≤ b.time) st'.events ∧
       st'.events.length = st.events.length + notes.countP (Device.emits P files)) := by
  induction notes with
  | nil =>
    intro st st' hok hbound hpair
    simp only [Device.processNotes] at hok
    injection hok with h2
    subst h2
    simpa using ⟨hbound, hpair⟩
  | cons note notes ih =>
    intro st st' hok hbound hpair
    simp only [Device.processNotes] at hok
    cases hstep : Device.step P files pads st note with
    | error e => rw [hstep] at hok; cases hok
    | ok st1 =>
      rw [hstep] at hok
      have hd : (0 : ℚ) ≤ (note.delay : ℚ) / (P.ticks : ℚ) :=
        div_nonneg (Nat.cast_nonneg _) (Nat.cast_nonneg _)
      rcases step_ok_cases hstep with
        ⟨hres, _, _, he, ht⟩ | ⟨note_path, hres, _, _, he, ht⟩
      · have hts : st.time_in_beats_for_next_note ≤ st1.time_in_beats_for_next_note := by
          rcases ht with ht | ht
          · rw [ht]
          · rw [ht]; linarith
        have hbound1 : ∀ e ∈ st1.events, e.time ≤ st1.time_in_beats_for_next_note := by
          intro e hee
          rw [he] at hee
          exact le_trans (hbound e hee) hts
        have hpair1 : List.Pairwise (fun a b : MidiNote => a.time ≤ b.time) st1.events := by
          rw [he]; exact hpair
        rcases ih st1 st' hok hbound1 hpair1 with ⟨h1, h2, h3⟩
        refine ⟨h1, h2, ?_⟩
        rw [h3, he, List.countP_cons]
        have hem : Device.emits P files note = false := by
          simp [Device.emits, hres]
        rw [hem]
        simp
      · have hts : st.time_in_beats_for_next_note ≤ st1.time_in_beats_for_next_note := by
          rw [ht]; linarith
        have hbound1 : ∀ e ∈ st1.events, e.time ≤ st1.time_in_beats_for_next_note := by
          intro e hee
          rw [he] at hee
          rcases List.mem_append.mp hee with h1 | h1
          · exact le_trans (hbound e h1) hts
          · rw [List.mem_singleton] at h1
            subst h1
            exact hts
        have hpair1 : List.Pairwise (fun a b : MidiNote => a.time ≤ b.time) st1.events := by
          rw [he, List.pairwise_append]
          refine ⟨hpair, List.pairwise_singleton _ _, ?_⟩
          intro a ha b hb
          rw [List.mem_singleton] at hb
          subst hb
          exact hbound a ha
        rcases ih st1 st' hok hbound1 hpair1 with ⟨h1, h2, h3⟩
        refine ⟨h1, h2, ?_⟩
        rw [h3, he, List.countP_cons]
        have hem : Device.emits P files note = true := by
          simp [Device.emits, hres]
        rw [hem]
        simp only [List.length_append, List.length_singleton, if_true]
        omega

/-- One loop iteration never reads the `velocity` field: two notes equal
after zeroing `velocity` drive the iteration identically. -/
lemma step_scrub (P : DeviceProfile) (files : List String) (pads : Int → Option Pad)
    (st : MidiState) (n1 n2 : Note) (h : scrub_velocity n1 = scrub_velocity n2) :
    Device.step P files pads st n1 = Device.step P files pads st n2 := by
  cases n1
  cases n2
  simp only [scrub_velocity, Note.mk.injEq] at h
  rcases h with ⟨h1, h2, h3, h4, _, h6, h7⟩
  subst h1; subst h2; subst h3; subst h4; subst h6; subst h7
  rfl

/-- The whole note loop never reads the `velocity` field. -/
lemma processNotes_scrub (P : DeviceProfile) (files : List String)
    (pads : Int → Option Pad) :
    ∀ (notes1 notes2 : List Note) (st : MidiState),
      notes1.map scrub_velocity = notes2.map scrub_velocity →
      Device.processNotes P files pads st notes1 =
        Device.processNotes P files pads st notes2 := by
  intro notes1
  induction notes1 with
  | nil =>
    intro notes2 st h
    cases notes2 with
    | nil => rfl
    | cons b t => simp at h
  | cons n1 t1 ih =>
    intro notes2 st h
    cases notes2 with
    | nil => simp at h
    | cons n2 t2 =>
      simp only [List.map_cons, List.cons.injEq] at h
      rcases h with ⟨h1, h2⟩
      simp only [Device.processNotes]
      rw [step_scrub P files pads st n1 n2 h1]
      cases Device.step P files pads st n2 with
      | error e => rfl
      | ok st1 => exact ih t2 st1 h2

/-- Every `addNote` call of the note loop carries `volume=100`. -/
lemma processNotes_volume (P : DeviceProfile) (files : List String)
    (pads : Int → Option Pad) (notes : List Note) :
    ∀ (st st' : MidiState),
      Device.processNotes P files pads st notes = .ok st' →
      (∀ e ∈ st.events, e.volume = 100) →
      ∀ e ∈ st'.events, e.volume = 100 := by
  induction notes with
  | nil =>
    intro st st' hok hvol
    simp only [Device.processNotes] at hok
    injection hok with h2
    subst h2
    exact hvol
  | cons note notes ih =>
    intro st st' hok hvol
    simp only [Device.processNotes] at hok
    cases hstep : Device.step P files pads st note with
    | error e => rw [hstep] at hok; cases hok
    | ok st1 =>
      rw [hstep] at hok
      rcases step_ok_cases hstep with
        ⟨_, _, _, he, _⟩ | ⟨note_path, _, _, _, he, _⟩
      · exact ih st1 st' hok (fun e hee => hvol e (he ▸ hee))
      · refine ih st1 st' hok ?_
        intro e hee
        rw [he] at hee
        rcases List.mem_append.mp hee with h1 | h1
        · exact hvol e h1
        · rw [List.mem_singleton] at h1
          subst h1
          rfl

/-- C1: refuting evaluation. In `sp404mkii_sample_extract.create_midi_file`,
a single note (delay 480 ticks) whose sample cannot be resolved (empty
sample directory) is skipped by `except StopIteration: continue`, which
also bypasses the delay accumulation: the run completes with total elapsed
time 0, not `sum(note.delay) / ticks_per_quarter_note = 480 / 480 = 1` as
the claim (and the spec's unconditional-advance rule) requires. -/
theorem C1_code_bug_eval :
    Sp404mkii.create_midi_file [] (fun _ => none)
      [{ delay := 480, pad := 47, bank_switch := 0, unknown2 := 0, velocity := 0,
         unknown3 := 0, length := 480 }] = .ok Device.initialState ∧
    Device.initialState.time_in_beats_for_next_note = 0 ∧
    (480 : ℚ) / (Sp404mkii.TICKS_PER_QUARTER_NOTE : ℚ) = 1 ∧
    (0 : ℚ) ≠ 1 := by
  refine ⟨rfl, rfl, ?_, ?_⟩
  · norm_num [Sp404mkii.TICKS_PER_QUARTER_NOTE]
  · norm_num

/-- C2: counterexample. In `ptn2midi.py` (12 pads per bank, 10 banks, so
the claim's sentinel would be 120) a note with `pad = 120` is NOT treated
as a rest: with a matching sample file present it emits a timeline event
(pitch 36). The code compares `note.pad != 128`, a fixed literal, in both
files. -/
theorem C2_counterexample :
    120 = Ptn2midi.PADS_PER_BANK * Ptn2midi.TOTAL_BANKS ∧
    ((Ptn2midi.create_midi_file ["G0000002.WAV"]
        (fun _ => some ⟨0, 0, 512, 1024, 0, false, false, false, false, 0, 0, 0, 0, 0⟩)
        [{ delay := 0, pad := 120, bank_switch := 0, unknown2 := 0, velocity := 0,
           unknown3 := 0, length := 96 }]).toOption.map
        (fun st => st.events.map (fun e => (e.pitch, e.note_path)))) =
      some [(36, "G0000002.WAV")] :=
  ⟨rfl, by decide⟩

/-- C2 (amended): the rest sentinel is the fixed value 128 in both
variants. A note with `pad = 128` emits no timeline event, leaves the
pitch state untouched, and still advances elapsed time by
`delay / ticks_per_quarter_note`. -/
theorem C2_amended_thm (P : DeviceProfile) (files : List String)
    (pads : Int → Option Pad) (st : MidiState) (note : Note)
    (h : note.pad = 128) :
    Device.step P files pads st note =
      .ok { st with time_in_beats_for_next_note :=
              st.time_in_beats_for_next_note + (note.delay : ℚ) / (P.ticks : ℚ) } := by
  unfold Device.step
  rw [if_neg (by simp [h])]

/-- C2 (amended): witness at a concrete rest note (pad 128, delay 480)
under the mkII profile. -/
theorem C2_amended_witness :
    Device.step Sp404mkii.profile [] (fun _ => none) Device.initialState
      { delay := 480, pad := 128, bank_switch := 0, unknown2 := 0, velocity := 0,
        unknown3 := 0, length := 0 } =
      .ok { Device.initialState with time_in_beats_for_next_note :=
              Device.initialState.time_in_beats_for_next_note +
                ((480 : Nat) : ℚ) / (Sp404mkii.profile.ticks : ℚ) } :=
  C2_amended_thm Sp404mkii.profile [] (fun _ => none) Device.initialState _ rfl

/-- C3: counterexample. In `ptn2midi.py` the directory search
`next(filter(...))` has no handler: with an empty sample directory the
first note raises `StopIteration`, aborting the whole run — the failure is
fatal there, not per-note, and the remaining note is never processed. -/
theorem C3_counterexample :
    Ptn2midi.create_midi_file []
      (fun _ => some ⟨0, 0, 512, 1024, 0, false, false, false, false, 0, 0, 0, 0, 0⟩)
      [{ delay := 0, pad := 47, bank_switch := 0, unknown2 := 0, velocity := 0,
         unknown3 := 0, length := 96 },
       { delay := 0, pad := 48, bank_switch := 0, unknown2 := 0, velocity := 0,
         unknown3 := 0, length := 96 }] = .error RunError.stop_iteration := rfl

/-- C3 (amended): in the mkII variant
(`sp404mkii_sample_extract.create_midi_file`) an unresolvable sample is
non-fatal and per-note: the note's emission is skipped (the `continue`
also drops its delay) and processing continues with the remaining notes
exactly as if the note were absent. In the SP-404SX variant (`ptn2midi.py`)
the same condition raises an uncaught `StopIteration` aborting the run. -/
theorem C3_amended_thm (files : List String) (pads : Int → Option Pad)
    (st : MidiState) (note : Note) (notes : List Note) (sn : Int)
    (h1 : note.pad ≠ 128)
    (h2 : Device.notetuple_to_sample_number Sp404mkii.profile.PADS_PER_BANK note = some sn)
    (h3 : Device.findSample Sp404mkii.profile files (Sp404mkii.profile.stem sn) = none) :
    Device.processNotes Sp404mkii.profile files pads st (note :: notes) =
      Device.processNotes Sp404mkii.profile files pads st notes := by
  have hstep : Device.step Sp404mkii.profile files pads st note = .ok st := by
    unfold Device.step
    rw [if_pos h1, h2]
    dsimp only []
    rw [h3]
    dsimp only []
    rfl
  simp only [Device.processNotes]
  rw [hstep]

/-- C3 (amended): witness at a concrete unresolvable note under the mkII
profile. -/
theorem C3_amended_witness :
    Device.processNotes Sp404mkii.profile [] (fun _ => none) Device.initialState
      [{ delay := 0, pad := 47, bank_switch := 0, unknown2 := 0, velocity := 0,
         unknown3 := 0, length := 0 }] =
      Device.processNotes Sp404mkii.profile [] (fun _ => none) Device.initialState [] :=
  C3_amended_thm [] (fun _ => none) Device.initialState _ [] 1 (by decide) rfl rfl

/-- C4: for every note, `notetuple_to_sample_number` (both files) returns
`pad - 46` when `bank_switch` is 0 or 64, `pad - 46 + 5 * PADS_PER_BANK`
when it is 1 or 65, and for any other value signals the error
(`sys.exit(1)`, modelled as `none`) that makes the loop iteration — and
hence the run — abort with `RunError.bank_switch_exit` instead of
guessing. -/
theorem C4_thm (note : Note) :
    ((note.bank_switch = 0 ∨ note.bank_switch = 64) →
      Ptn2midi.notetuple_to_sample_number note = some ((note.pad : Int) - 46) ∧
      Sp404mkii.notetuple_to_sample_number note = some ((note.pad : Int) - 46)) ∧
    ((note.bank_switch = 1 ∨ note.bank_switch = 65) →
      Ptn2midi.notetuple_to_sample_number note =
        some ((note.pad : Int) - 46 + (Ptn2midi.PADS_PER_BANK : Int) * 5) ∧
      Sp404mkii.notetuple_to_sample_number note =
        some ((note.pad : Int) - 46 + (Sp404mkii.PADS_PER_BANK : Int) * 5)) ∧
    (note.bank_switch ≠ 0 → note.bank_switch ≠ 64 →
     note.bank_switch ≠ 1 → note.bank_switch ≠ 65 →
      Ptn2midi.notetuple_to_sample_number note = none ∧
      Sp404mkii.notetuple_to_sample_number note = none ∧
      ∀ (files : List String) (pads : Int → Option Pad) (st : MidiState),
        note.pad ≠ 128 →
        Device.step Ptn2midi.profile files pads st note = .error RunError.bank_switch_exit ∧
        Device.step Sp404mkii.profile files pads st note = .error RunError.bank_switch_exit) := by
  refine ⟨?_, ?_, ?_⟩
  · intro h
    rcases h with h | h <;>
      exact ⟨by simp [Ptn2midi.notetuple_to_sample_number,
                      Device.notetuple_to_sample_number, h],
             by simp [Sp404mkii.notetuple_to_sample_number,
                      Device.notetuple_to_sample_number, h]⟩
  · intro h
    rcases h with h | h <;>
      exact ⟨by simp [Ptn2midi.notetuple_to_sample_number,
                      Device.notetuple_to_sample_number, h],
             by simp [Sp404mkii.notetuple_to_sample_number,
                      Device.notetuple_to_sample_number, h]⟩
  · intro h0 h64 h1 h65
    have hsx : Device.notetuple_to_sample_number Ptn2midi.profile.PADS_PER_BANK note = none := by
      simp [Device.notetuple_to_sample_number, h0, h64, h1, h65]
    have hmk : Device.notetuple_to_sample_number Sp404mkii.profile.PADS_PER_BANK note = none := by
      simp [Device.notetuple_to_sample_number, h0, h64, h1, h65]
    refine ⟨hsx, hmk, ?_⟩
    intro files pads st hpad
    constructor
    · unfold Device.step
      rw [if_pos hpad, hsx]
    · unfold Device.step
      rw [if_pos hpad, hmk]

/-- C4: witness at the concrete note `bank_switch = 2` of the claim. -/
theorem C4_witness :
    Ptn2midi.notetuple_to_sample_number ⟨0, 50, 2, 0, 0, 0, 0⟩ = none ∧
    Sp404mkii.notetuple_to_sample_number ⟨0, 50, 2, 0, 0, 0, 0⟩ = none ∧
    Device.step Ptn2midi.profile [] (fun _ => none) Device.initialState
      ⟨0, 50, 2, 0, 0, 0, 0⟩ = .error RunError.bank_switch_exit ∧
    Device.step Sp404mkii.profile [] (fun _ => none) Device.initialState
      ⟨0, 50, 2, 0, 0, 0, 0⟩ = .error RunError.bank_switch_exit := by
  have h := (C4_thm ⟨0, 50, 2, 0, 0, 0, 0⟩).2.2
    (by decide) (by decide) (by decide) (by decide)
  rcases h with ⟨h1, h2, h3⟩
  rcases h3 [] (fun _ => none) Device.initialState (by decide) with ⟨h4, h5⟩
  exact ⟨h1, h2, h4, h5⟩

/-- C5: pitch allocation is stable and in first-occurrence order. In any
completed run of `create_midi_file` (either device profile), every emitted
event's pitch equals 36 plus the index of its resolved sample path in the
list of distinct resolved paths ordered by first occurrence: two events
referencing the same resolved path receive the same pitch, the first
distinct sample gets 36, the second 37, and so on — determined by
encounter order, never by sorting. -/
theorem C5_thm (P : DeviceProfile) (files : List String) (pads : Int → Option Pad)
    (notes : List Note) (st : MidiState)
    (hok : Device.create_midi_file P files pads notes = .ok st) :
    ∀ e ∈ st.events,
      e.note_path ∈ firstOccs (Device.resolvedPaths P files notes) ∧
      e.pitch = 36 + (firstOccs (Device.resolvedPaths P files notes)).indexOf e.note_path :=
  processNotes_pitch_inv P files pads notes Device.initialState st []
    rfl rfl (by intro e hee; cases hee) hok

/-- Sample directory for the C5 witness run. -/
def C5_files : List String := ["BANK0-01.wav"]

/-- Pad table for the C5 witness run. -/
def C5_pads : Int → Option Pad :=
  fun _ => some ⟨0, 0, 512, 1024, 0, false, false, false, false, 0, 0, 0, 0, 0⟩

/-- Note list for the C5 witness run. -/
def C5_notes : List Note :=
  [{ delay := 0, pad := 47, bank_switch := 0, unknown2 := 0, velocity := 0,
     unknown3 := 0, length := 0 }]

/-- Final state of the C5 witness run. -/
def C5_state : MidiState :=
  (Sp404mkii.create_midi_file C5_files C5_pads C5_notes).toOption.getD Device.initialState

/-- The single event of the C5 witness run. -/
def C5_event : MidiNote := C5_state.events.getD 0 ⟨0, 0, 0, 0, ""⟩

/-- C5: witness — a concrete mkII run emitting one event, whose pitch is
36 as the first-occurrence rule dictates. -/
theorem C5_witness :
    Sp404mkii.create_midi_file C5_files C5_pads C5_notes = .ok C5_state ∧
    C5_event ∈ C5_state.events ∧
    C5_event.note_path ∈ firstOccs (Device.resolvedPaths Sp404mkii.profile C5_files C5_notes) ∧
    C5_event.pitch =
      36 + (firstOccs (Device.resolvedPaths Sp404mkii.profile C5_files C5_notes)).indexOf
        C5_event.note_path := by
  have hmem : C5_event ∈ C5_state.events := List.mem_singleton_self _
  have h := C5_thm Sp404mkii.profile C5_files C5_pads C5_notes C5_state rfl C5_event hmem
  exact ⟨rfl, hmem, h.1, h.2⟩

/-- C6: counterexample. With `pads_per_bank = 16`
(`sp404mkii_sample_extract.py`), `derive("B1")` is `PTN00017.BIN`
(`(toupper('B') - 'A') * 16 + 1 mod 16 = 17`), not the claimed
`PTN00012.BIN`. -/
theorem C6_counterexample :
    Sp404mkii.pattern_name_to_filename "B1" = some "PTN00017.BIN" ∧
    ("PTN00017.BIN" : String) ≠ "PTN00012.BIN" :=
  ⟨by decide, by decide⟩

/-- C6 (amended): pattern filename derivation computes
`(toupper(first letter) - 'A') * pads_per_bank + (number mod
pads_per_bank)`, zero-padded to 5 digits inside `PTN{...}.BIN`; in
particular `derive("A1") = "PTN00001.BIN"` and `derive("B11") =
"PTN00023.BIN"` with `pads_per_bank = 12`, and `derive("B1") =
"PTN00017.BIN"` (not `"PTN00012.BIN"`) with `pads_per_bank = 16`. -/
theorem C6_amended_thm :
    (∀ (c : Char) (rest : List Char) (n : Int), pyInt rest = some n →
      Ptn2midi.pattern_name_to_filename (String.mk (c :: rest)) =
        some ("PTN" ++ pyZfill 5 (((c.toUpper.toNat : Int) - 65) * 12 + n.emod 12) ++ ".BIN") ∧
      Sp404mkii.pattern_name_to_filename (String.mk (c :: rest)) =
        some ("PTN" ++ pyZfill 5 (((c.toUpper.toNat : Int) - 65) * 16 + n.emod 16) ++ ".BIN")) ∧
    Ptn2midi.pattern_name_to_filename "A1" = some "PTN00001.BIN" ∧
    Ptn2midi.pattern_name_to_filename "B11" = some "PTN00023.BIN" ∧
    Sp404mkii.pattern_name_to_filename "B1" = some "PTN00017.BIN" := by
  refine ⟨?_, by decide, by decide, by decide⟩
  intro c rest n hp
  constructor
  · simp only [Ptn2midi.pattern_name_to_filename]
    rw [show (String.mk (c :: rest)).toList = c :: rest from rfl]
    dsimp only []
    rw [hp]
    simp [Ptn2midi.PADS_PER_BANK]
  · simp only [Sp404mkii.pattern_name_to_filename]
    rw [show (String.mk (c :: rest)).toList = c :: rest from rfl]
    dsimp only []
    rw [hp]
    simp [Sp404mkii.PADS_PER_BANK]

/-- C6 (amended): witness instantiating the derivation formula at
pattern name B1. -/
theorem C6_amended_witness :
    Ptn2midi.pattern_name_to_filename (String.mk ('B' :: ['1'])) =
      some ("PTN" ++ pyZfill 5 ((('B'.toUpper.toNat : Int) - 65) * 12 + (1 : Int).emod 12) ++ ".BIN") ∧
    Sp404mkii.pattern_name_to_filename (String.mk ('B' :: ['1'])) =
      some ("PTN" ++ pyZfill 5 ((('B'.toUpper.toNat : Int) - 65) * 16 + (1 : Int).emod 16) ++ ".BIN") :=
  C6_amended_thm.1 'B' ['1'] 1 (by decide)

/-- C7: counterexample. `get_pattern` performs no size validation: a
20-byte pattern file — a size that is NOT a multiple of 8 — is accepted
without any `FormatError`, returning zero notes and bar count 0 (the
remainder bytes are silently ignored). -/
theorem C7_counterexample :
    get_pattern (List.replicate 20 0) = .ok ([], 0) ∧ ¬ (20 % 8 = 0) :=
  ⟨rfl, by decide⟩

/-- C7 (amended): `get_pattern` validates nothing. It reads
`floor(size / 8) - 2` (clamped at zero) 8-byte big-endian records followed
by a 16-byte trailer whose byte at offset 9 is the signed bar count: any
file of at least 16 bytes succeeds with exactly `floor(size / 8) - 2`
notes regardless of divisibility by 8; files of 10 to 15 bytes also
succeed (with zero notes); only a file of at most 9 bytes fails, and then
with a `struct.error` from unpacking the bar-count slice, not with a
`FormatError`. -/
theorem C7_amended_thm (data : List Nat) :
    (16 ≤ data.length →
      (get_pattern data).toOption.map (fun r => r.1.length) = some (data.length / 8 - 2)) ∧
    (10 ≤ data.length → (get_pattern data).toOption.isSome = true) ∧
    (data.length ≤ 9 → get_pattern data = .error "struct.error") := by
  simp only [get_pattern]
  set nc := (((data.length / 8 : Nat) : Int) - 2).toNat with hnc
  have hlen : (((data.drop (8 * nc)).take 16).drop 9).length =
      min 16 (data.length - 8 * nc) - 9 := by
    simp [List.length_drop, List.length_take]
  refine ⟨?_, ?_, ?_⟩
  · intro h16
    cases hmatch : ((data.drop (8 * nc)).take 16).drop 9 with
    | nil =>
      exfalso
      rw [hmatch] at hlen
      simp only [List.length_nil] at hlen
      omega
    | cons b bs =>
      dsimp only []
      simp only [Except.toOption, Option.map_some', Option.some.injEq,
        List.length_map, List.length_range]
      omega
  · intro h10
    cases hmatch : ((data.drop (8 * nc)).take 16).drop 9 with
    | nil =>
      exfalso
      rw [hmatch] at hlen
      simp only [List.length_nil] at hlen
      omega
    | cons b bs =>
      dsimp only []
      simp [Except.toOption]
  · intro h9
    have hnc0 : nc = 0 := by omega
    rw [hnc0]
    have hdrop : ((data.drop (8 * 0)).take 16).drop 9 = [] := by
      apply List.drop_eq_nil_of_le
      simp only [Nat.mul_zero, List.drop_zero, List.length_take]
      omega
    rw [hdrop]

/-- C7 (amended): witness at a 24-byte file (one note) and an 8-byte
file (struct error). -/
theorem C7_amended_witness :
    (get_pattern (List.replicate 24 0)).toOption.map (fun r => r.1.length) = some 1 ∧
    get_pattern (List.replicate 8 0) = .error "struct.error" := by
  have h1 := (C7_amended_thm (List.replicate 24 0)).1 (by decide)
  have h2 := (C7_amended_thm (List.replicate 8 0)).2.2 (by decide)
  exact ⟨by rw [h1]; decide, h2⟩

/-- C8: counterexample. In `ptn2midi.py`, `trim_wav_by_frame_numbers` has
no invalid-window fallback: for a 100-frame file, `end_frame ==
start_frame == 5` produces a zero-length clip `(5, 0)` instead of the full
sample `(0, 100)`, and a negative start frame raises an uncaught
`wave.Error` (fatal), contradicting the claimed untrimmed-fallback
recovery. -/
theorem C8_counterexample :
    Ptn2midi.trim_wav_by_frame_numbers 100 5 5 = .ok (5, 0) ∧
    Ptn2midi.trim_wav_by_frame_numbers 100 (-1) 3 =
      .error "wave.Error: position not in range" :=
  ⟨rfl, rfl⟩

/-- C8 (amended): only the mkII variant
(`sp404mkii_sample_extract.trim_wav_by_frame_numbers`) implements the
recovery: whenever `end_frame == start_frame` or either frame is negative,
the pad is treated as untrimmed — the output window is the full sample,
frame 0 through the file's native frame count — and the run continues. The
SP-404SX variant has no such fallback (see the counterexample). -/
theorem C8_amended_thm (start_frame end_frame nframes : Int)
    (h : end_frame = start_frame ∨ start_frame < 0 ∨ end_frame < 0) :
    Sp404mkii.trim_wav_by_frame_numbers start_frame end_frame nframes = (0, nframes) := by
  unfold Sp404mkii.trim_wav_by_frame_numbers
  rw [if_pos h, if_pos h]
  simp

/-- C8 (amended): witness at the degenerate window 5..5 of a 100-frame
file. -/
theorem C8_amended_witness :
    Sp404mkii.trim_wav_by_frame_numbers 5 5 100 = (0, 100) :=
  C8_amended_thm 5 5 100 (Or.inl rfl)

/-- C9: in any completed run of `create_midi_file` (either device
profile), the start times of the emitted events are non-decreasing — by
monotone accumulation of the non-negative `delay / ticks` increments, not
by sorting — and every note that resolves to a sample contributes exactly
one event, so duplicate identical events are all preserved, never
deduplicated. -/
theorem C9_thm (P : DeviceProfile) (files : List String) (pads : Int → Option Pad)
    (notes : List Note) (st : MidiState)
    (hok : Device.create_midi_file P files pads notes = .ok st) :
    List.Pairwise (· ≤ ·) (st.events.map (fun e => e.time)) ∧
    st.events.length = notes.countP (Device.emits P files) := by
  rcases processNotes_events_inv P files pads notes Device.initialState st hok
      (by intro e hee; cases hee) List.Pairwise.nil with ⟨h1, h2, h3⟩
  constructor
  · rw [List.pairwise_map]
    exact h2
  · simpa [Device.initialState] using h3

/-- Sample directory for the C9 witness run. -/
def C9_files : List String := ["BANK0-01.wav"]

/-- Pad table for the C9 witness run. -/
def C9_pads : Int → Option Pad :=
  fun _ => some ⟨0, 0, 512, 1024, 0, false, false, false, false, 0, 0, 0, 0, 0⟩

/-- Note list for the C9 witness run: the same note twice, at the same
instant, to exercise duplicate preservation. -/
def C9_notes : List Note :=
  [{ delay := 0, pad := 47, bank_switch := 0, unknown2 := 0, velocity := 0,
     unknown3 := 0, length := 0 },
   { delay := 0, pad := 47, bank_switch := 0, unknown2 := 0, velocity := 0,
     unknown3 := 0, length := 0 }]

/-- Final state of the C9 witness run. -/
def C9_state : MidiState :=
  (Sp404mkii.create_midi_file C9_files C9_pads C9_notes).toOption.getD Device.initialState

/-- C9: witness — two identical simultaneous notes yield two events (in
non-decreasing time order), not one. -/
theorem C9_witness :
    Sp404mkii.create_midi_file C9_files C9_pads C9_notes = .ok C9_state ∧
    List.Pairwise (· ≤ ·) (C9_state.events.map (fun e => e.time)) ∧
    C9_state.events.length = C9_notes.countP (Device.emits Sp404mkii.profile C9_files) ∧
    C9_state.events.length = 2 := by
  have h := C9_thm Sp404mkii.profile C9_files C9_pads C9_notes C9_state rfl
  exact ⟨rfl, h.1, h.2, rfl⟩

/-- C10: the `velocity` field of a note record has no effect on the
output — the note loop is invariant under changing velocities (two note
lists equal after zeroing velocities produce identical results), and every
emitted event carries the fixed volume 100. -/
theorem C10_thm (P : DeviceProfile) :
    (∀ (files : List String) (pads : Int → Option Pad) (st : MidiState)
       (notes1 notes2 : List Note),
       notes1.map scrub_velocity = notes2.map scrub_velocity →
       Device.processNotes P files pads st notes1 =
         Device.processNotes P files pads st notes2) ∧
    (∀ (files : List String) (pads : Int → Option Pad) (notes : List Note) (st : MidiState),
       Device.create_midi_file P files pads notes = .ok st →
       ∀ e ∈ st.events, e.volume = 100) := by
  constructor
  · intro files pads st notes1 notes2 h
    exact processNotes_scrub P files pads notes1 notes2 st h
  · intro files pads notes st hok
    exact processNotes_volume P files pads notes Device.initialState st hok
      (by intro e hee; cases hee)

/-- Sample directory for the C10 witness run. -/
def C10_files : List String := ["BANK0-01.wav"]

/-- Pad table for the C10 witness run. -/
def C10_pads : Int → Option Pad :=
  fun _ => some ⟨0, 0, 512, 1024, 0, false, false, false, false, 0, 0, 0, 0, 0⟩

/-- Note list for the C10 witness run, velocity 7. -/
def C10_notes1 : List Note :=
  [{ delay := 0, pad := 47, bank_switch := 0, unknown2 := 0, velocity := 7,
     unknown3 := 0, length := 0 }]

/-- The same note list with velocity 200. -/
def C10_notes2 : List Note :=
  [{ delay := 0, pad := 47, bank_switch := 0, unknown2 := 0, velocity := 200,
     unknown3 := 0, length := 0 }]

/-- Final state of the C10 witness run. -/
def C10_state : MidiState :=
  (Sp404mkii.create_midi_file C10_files C10_pads C10_notes1).toOption.getD Device.initialState

/-- The single event of the C10 witness run. -/
def C10_event : MidiNote := C10_state.events.getD 0 ⟨0, 0, 0, 0, ""⟩

/-- C10: witness — two runs differing only in a velocity byte produce
identical results, and the emitted event has volume 100. -/
theorem C10_witness :
    Sp404mkii.create_midi_file C10_files C10_pads C10_notes1 =
      Sp404mkii.create_midi_file C10_files C10_pads C10_notes2 ∧
    Sp404mkii.create_midi_file C10_files C10_pads C10_notes1 = .ok C10_state ∧
    C10_event ∈ C10_state.events ∧
    C10_event.volume = 100 := by
  have h1 := (C10_thm Sp404mkii.profile).1 C10_files C10_pads Device.initialState
    C10_notes1 C10_notes2 (by decide)
  have hmem : C10_event ∈ C10_state.events := List.mem_singleton_self _
  have h2 := (C10_thm Sp404mkii.profile).2 C10_files C10_pads C10_notes1 C10_state
    rfl C10_event hmem
  exact ⟨h1, rfl, hmem, h2⟩
